import Mathlib

/-!
Shallow embedding of the document-chat application (`src/myapp.py`).

The program is a single-script reactive web app.  Its state lives in a
session object with the fields initialized at lines 56-71 of the source:
`messages`, `document_content`, `document_name`, `document_type`,
`document_size`, `saved_contexts`.  We model that session object as a
Lean structure and each handler of the script as a state-transforming
function, translated line by line from the source.  Python strings are
modelled by Lean `String` (Python `len` on `str` counts code points,
matching `String.length`); Python `None` by `Option.none`; the
`saved_contexts` dict by an association list with insert-or-replace
assignment (Python dicts keep at most one binding per key); raised
exceptions by `Except String`.
-/

/-- Whitespace test matching Python `str.strip`'s default character class
(space, tab, newline, carriage return, vertical tab, form feed). -/
def pyIsSpace (c : Char) : Bool :=
  c == ' ' || c == '\t' || c == '\n' || c == '\r' || c == '\x0b' || c == '\x0c'

/-- Python `str.strip()` with no argument: remove leading and trailing
whitespace. -/
def pyStrip (s : String) : String :=
  ⟨(((s.data.dropWhile pyIsSpace).reverse.dropWhile pyIsSpace).reverse)⟩

/-- One chat message, a dict `{"role": ..., "content": ...}` in the source
(lines 388 and 428). -/
structure Turn where
  role : String
  content : String
deriving DecidableEq, Repr

/-- The value stored by `save_context` (source lines 184-189) under a label in
`st.session_state.saved_contexts`.  The `saved_at` timestamp is an external
clock reading and is not modelled. -/
structure SavedContext where
  messages : List Turn
  document : Option String
  document_type : Option String
deriving DecidableEq, Repr

/-- The session state fields initialized at source lines 56-67.  The cached
OpenAI client and the save-dialog flag play no part in the modelled claims. -/
structure SessionState where
  messages : List Turn
  document_content : Option String
  document_name : Option String
  document_type : Option String
  document_size : Nat
  saved_contexts : List (String × SavedContext)
deriving DecidableEq, Repr

/-- Lookup in the `saved_contexts` dict (`context_name in st.session_state.saved_contexts`
followed by indexing, source lines 196-197). -/
def lookupCtx : List (String × SavedContext) → String → Option SavedContext
  | [], _ => none
  | (k, v) :: rest, n => if k = n then some v else lookupCtx rest n

/-- Dict assignment `saved_contexts[context_name] = {...}` (source line 184):
replace the binding if the key is present, otherwise append it. -/
def insertCtx : List (String × SavedContext) → String → SavedContext → List (String × SavedContext)
  | [], n, c => [(n, c)]
  | (k, v) :: rest, n, c => if k = n then (k, c) :: rest else (k, v) :: insertCtx rest n c

/-- Dict deletion `del st.session_state.saved_contexts[context_name]`
(source line 212); the dict holds at most one binding per key. -/
def eraseCtx : List (String × SavedContext) → String → List (String × SavedContext)
  | [], _ => []
  | (k, v) :: rest, n => if k = n then rest else (k, v) :: eraseCtx rest n

/-- Python truthiness of an optional string (`if not st.session_state.document_content`,
source lines 366 and 384): `None` and the empty string are falsy. -/
def strTruthy : Option String → Bool
  | none => false
  | some s => !(s == "")

/-- `process_document` (source lines 82-91): package the extracted text with
its metadata; `size` is `len(file_content)`, the code-point length of the
extracted text.  The `processed_at` clock reading is not modelled. -/
structure ProcessedDocument where
  content : String
  name : String
  type : String
  size : Nat
deriving DecidableEq, Repr

def process_document (file_content : String) (file_name : String) (file_type : String) :
    ProcessedDocument :=
  { content := file_content
    name := file_name
    type := file_type
    size := file_content.length }

/-- The page header `f"--- Page {page_num + 1} ---"` for 0-based page index
`n` (source line 103, without its surrounding newlines). -/
def pageMarker (n : Nat) : String :=
  "--- Page " ++ toString (n + 1) ++ " ---"

/-- The page loop of `extract_pdf_content` (source lines 101-106): starting at
0-based page index `n`, append each page's header unconditionally, then the
page's extracted text when it is non-empty (`if extracted:`). -/
def pdfPagesText : Nat → List String → String
  | _, [] => ""
  | n, p :: ps =>
      "\n" ++ pageMarker n ++ "\n" ++ (if p = "" then "" else p) ++ pdfPagesText (n + 1) ps

/-- `extract_pdf_content` (source lines 93-113), with the PDF represented by
the list of per-page `extract_text()` results (an image-only page yields `""`).
After the loop the function raises when `text.strip()` is empty; the outer
handler re-raises with the `"Error extracting PDF: "` prefix (line 113). -/
def extract_pdf_content (pages : List String) : Except String String :=
  let text := pdfPagesText 0 pages
  if pyStrip text = "" then
    Except.error "Error extracting PDF: No text found in PDF. The document may be image-based."
  else
    Except.ok text

/-- `save_context` (source lines 177-192): reject a blank name, do nothing on
an empty conversation, otherwise store a copy of the messages together with
the current document name and type under the label. -/
def save_context (s : SessionState) (context_name : String) : SessionState :=
  if pyStrip context_name = "" then s
  else if s.messages ≠ [] then
    { s with saved_contexts :=
        (insertCtx s.saved_contexts context_name
          ⟨s.messages, s.document_name, s.document_type⟩) }
  else s

/-- `load_context` (source lines 194-202): when the label is present, replace
the live messages with a copy of the stored ones; otherwise report an error
and change nothing. -/
def load_context (s : SessionState) (context_name : String) : SessionState :=
  match lookupCtx s.saved_contexts context_name with
  | some ctx => { s with messages := ctx.messages }
  | none => s

/-- `clear_chat` (source lines 204-207). -/
def clear_chat (s : SessionState) : SessionState :=
  { s with messages := [] }

/-- `delete_context` (source lines 209-213). -/
def delete_context (s : SessionState) (context_name : String) : SessionState :=
  { s with saved_contexts := eraseCtx s.saved_contexts context_name }

/-- The clear-document button handler (source lines 303-308). -/
def clearDocument (s : SessionState) : SessionState :=
  { s with document_content := none
           document_name := none
           document_type := none
           document_size := 0 }

/-- The upload handler (source lines 257-288), after the extension dispatch:
`extraction` is the outcome of the format's extractor on the uploaded file.
A raised extraction error is caught at line 287 leaving the session as it
was; on success with truthy content (`if file_content:`, line 279) the four
document fields are set from `process_document`. -/
def uploadHandler (s : SessionState) (fileName : String) (docType : String)
    (extraction : Except String String) : SessionState :=
  match extraction with
  | Except.error _ => s
  | Except.ok content =>
      if content = "" then s
      else
        let processed := process_document content fileName docType
        { s with document_content := some processed.content
                 document_name := some processed.name
                 document_type := some processed.type
                 document_size := processed.size }

/-- Python `f"{x}"` on an optional string: `None` renders as `"None"`. -/
def fmtOpt : Option String → String
  | none => "None"
  | some s => s

/-- Leading text of the system prompt f-string (source lines 396-398). -/
def promptHeader : String :=
  "You are a helpful and professional assistant. Answer questions based ONLY on the following document content.\n\nDOCUMENT: "

/-- Trailing guidelines of the system prompt f-string (source lines 405-410). -/
def promptGuidelines : String :=
  "\n\nGuidelines:\n- Be concise and helpful\n- If the answer is not in the document, clearly say so\n- Provide relevant context from the document when answering\n- If asked to do something outside the document scope, politely decline"

/-- The `system_prompt` f-string assembled in the chat handler (source lines
396-410), as a function of the three session fields it interpolates. -/
def build_system_prompt (name : String) (dtype : String) (content : String) : String :=
  promptHeader ++ name ++ "\nTYPE: " ++ dtype ++ "\n\nDOCUMENT CONTENT:\n"
    ++ "---\n" ++ content ++ "\n---" ++ promptGuidelines

/-- The system prompt as the handler reads it from the session state. -/
def systemPromptOf (s : SessionState) : String :=
  build_system_prompt (fmtOpt s.document_name) (fmtOpt s.document_type)
    (fmtOpt s.document_content)

/-- The chat submission handler (source lines 383-431): with a truthy document,
append the user turn, then call the completion endpoint; on success append the
assistant turn with the streamed text, on any raised error (caught at line
430) append nothing further. -/
def chatSubmit (s : SessionState) (prompt : String) (result : Except String String) :
    SessionState :=
  if strTruthy s.document_content = false then s
  else
    let s₁ := { s with messages := s.messages ++ [⟨"user", prompt⟩] }
    match result with
    | Except.ok response => { s₁ with messages := s₁.messages ++ [⟨"assistant", response⟩] }
    | Except.error _ => s₁

deriving instance DecidableEq for Except

/-- One user-driven operation of the app, each dispatched to the handler
modelled above. -/
inductive Op where
  | chatMsg (prompt : String) (result : Except String String)
  | clearChat
  | loadCtx (label : String)
  | saveCtx (label : String)
  | deleteCtx (label : String)
  | upload (fileName : String) (docType : String) (extraction : Except String String)
  | clearDoc
deriving DecidableEq, Repr

/-- Interpret one operation on the session state. -/
def step (op : Op) (s : SessionState) : SessionState :=
  match op with
  | Op.chatMsg prompt result => chatSubmit s prompt result
  | Op.clearChat => clear_chat s
  | Op.loadCtx label => load_context s label
  | Op.saveCtx label => save_context s label
  | Op.deleteCtx label => delete_context s label
  | Op.upload fileName docType extraction => uploadHandler s fileName docType extraction
  | Op.clearDoc => clearDocument s

/-- Run a sequence of operations, first one first. -/
def applyOps : List Op → SessionState → SessionState
  | [], s => s
  | op :: ops, s => applyOps ops (step op s)

/-- An operation does not save or delete under the given label (it may do
anything else, including saving under other labels). -/
def preservesB (label : String) : Op → Bool
  | Op.saveCtx l => !(l == label)
  | Op.deleteCtx l => !(l == label)
  | _ => true

/-- Number of bytes of a string's UTF-8 encoding.  Modelled from the spec:
"Size is recorded in bytes of the extracted text"; stated independently of the
source so it can be compared with what `process_document` records. -/
def specSizeBytes (s : String) : Nat :=
  (s.data.map Char.utf8Size).sum

/-! ### Helper lemmas -/

theorem memOfWithin {α : Type} {x : α} {l lw : List α} (h : l <:+: lw) (hx : x ∈ l) :
    x ∈ lw := by
  obtain ⟨u, v, rfl⟩ := h
  simp [hx]

theorem allMemOfDropWhile {α : Type} (p : α → Bool) :
    ∀ l : List α, (∀ x ∈ l.dropWhile p, p x) → ∀ x ∈ l, p x := by
  intro l
  induction l with
  | nil => simp
  | cons a t ih =>
    intro h x hx
    by_cases hpa : p a = true
    · rw [List.dropWhile_cons, if_pos hpa] at h
      rcases List.mem_cons.mp hx with rfl | hmem
      · exact hpa
      · exact ih h x hmem
    · rw [List.dropWhile_cons, if_neg hpa] at h
      exact h x hx

theorem pyStrip_empty_all_space {s : String} (h : pyStrip s = "") :
    ∀ c ∈ s.data, pyIsSpace c := by
  have hd : (((s.data.dropWhile pyIsSpace).reverse.dropWhile pyIsSpace).reverse) = [] :=
    congrArg String.data h
  rw [List.reverse_eq_nil_iff] at hd
  have h1 : ∀ x ∈ (s.data.dropWhile pyIsSpace).reverse, pyIsSpace x :=
    List.dropWhile_eq_nil_iff.mp hd
  have h2 : ∀ x ∈ s.data.dropWhile pyIsSpace, pyIsSpace x := by
    intro x hx
    exact h1 x (List.mem_reverse.mpr hx)
  exact allMemOfDropWhile pyIsSpace s.data h2

theorem pyStrip_ne_empty {s : String} {c : Char} (hc : c ∈ s.data)
    (hns : ¬ pyIsSpace c) : pyStrip s ≠ "" := by
  intro h
  exact hns (pyStrip_empty_all_space h c hc)

theorem markerWithinPages :
    ∀ (ps : List String) (n i : Nat), i < ps.length →
      (pageMarker (n + i)).data <:+: (pdfPagesText n ps).data := by
  intro ps
  induction ps with
  | nil => intro n i h; simp at h
  | cons p rest ih =>
    intro n i h
    cases i with
    | zero =>
      refine ⟨['\n'], '\n' :: ((if p = "" then "" else p).data ++ (pdfPagesText (n + 1) rest).data), ?_⟩
      show ['\n'] ++ (pageMarker (n + 0)).data ++ _ = _
      simp [pdfPagesText, String.data_append]
    | succ j =>
      have hj : j < rest.length := Nat.lt_of_succ_lt_succ h
      obtain ⟨u, v, huv⟩ := ih (n + 1) j hj
      have hn : n + (j + 1) = (n + 1) + j := by omega
      rw [hn]
      refine ⟨("\n" ++ pageMarker n ++ "\n" ++ (if p = "" then "" else p)).data ++ u, v, ?_⟩
      simp only [pdfPagesText, String.data_append, List.append_assoc]
      rw [← huv]
      simp [String.data_append, List.append_assoc]

theorem lookupCtx_insertCtx_self (m : List (String × SavedContext)) (n : String)
    (c : SavedContext) : lookupCtx (insertCtx m n c) n = some c := by
  induction m with
  | nil => simp [insertCtx, lookupCtx]
  | cons kv rest ih =>
    obtain ⟨k, v⟩ := kv
    by_cases hk : k = n
    · simp [insertCtx, lookupCtx, hk]
    · simp [insertCtx, lookupCtx, hk, ih]

theorem lookupCtx_insertCtx_other {n lbl : String} (h : n ≠ lbl)
    (m : List (String × SavedContext)) (c : SavedContext) :
    lookupCtx (insertCtx m n c) lbl = lookupCtx m lbl := by
  induction m with
  | nil => simp [insertCtx, lookupCtx, h]
  | cons kv rest ih =>
    obtain ⟨k, v⟩ := kv
    by_cases hk : k = n
    · subst hk
      simp [insertCtx, lookupCtx, h]
    · simp [insertCtx, lookupCtx, hk, ih]

theorem lookupCtx_eraseCtx_other {n lbl : String} (h : n ≠ lbl)
    (m : List (String × SavedContext)) :
    lookupCtx (eraseCtx m n) lbl = lookupCtx m lbl := by
  induction m with
  | nil => simp [eraseCtx]
  | cons kv rest ih =>
    obtain ⟨k, v⟩ := kv
    by_cases hk : k = n
    · subst hk
      simp [eraseCtx, lookupCtx, h]
    · simp [eraseCtx, lookupCtx, hk, ih]

theorem chatSubmit_saved_contexts (s : SessionState) (p : String)
    (r : Except String String) : (chatSubmit s p r).saved_contexts = s.saved_contexts := by
  unfold chatSubmit
  split
  · rfl
  · cases r <;> rfl

theorem load_context_saved_contexts (s : SessionState) (n : String) :
    (load_context s n).saved_contexts = s.saved_contexts := by
  unfold load_context
  cases lookupCtx s.saved_contexts n <;> rfl

theorem uploadHandler_saved_contexts (s : SessionState) (fileName docType : String)
    (e : Except String String) :
    (uploadHandler s fileName docType e).saved_contexts = s.saved_contexts := by
  cases e with
  | error _ => rfl
  | ok content => by_cases h : content = "" <;> simp [uploadHandler, h]

theorem save_context_lookup_other {n lbl : String} (h : n ≠ lbl) (s : SessionState) :
    lookupCtx (save_context s n).saved_contexts lbl = lookupCtx s.saved_contexts lbl := by
  unfold save_context
  split
  · rfl
  · split
    · exact lookupCtx_insertCtx_other h _ _
    · rfl

theorem delete_context_lookup_other {n lbl : String} (h : n ≠ lbl) (s : SessionState) :
    lookupCtx (delete_context s n).saved_contexts lbl = lookupCtx s.saved_contexts lbl := by
  unfold delete_context
  exact lookupCtx_eraseCtx_other h _

theorem step_lookup_preserved {lbl : String} {op : Op}
    (h : preservesB lbl op = true) (s : SessionState) :
    lookupCtx (step op s).saved_contexts lbl = lookupCtx s.saved_contexts lbl := by
  cases op with
  | chatMsg p r => rw [step, chatSubmit_saved_contexts]
  | clearChat => rfl
  | loadCtx n => rw [step, load_context_saved_contexts]
  | saveCtx n =>
    have hn : n ≠ lbl := by simpa [preservesB] using h
    exact save_context_lookup_other hn s
  | deleteCtx n =>
    have hn : n ≠ lbl := by simpa [preservesB] using h
    exact delete_context_lookup_other hn s
  | upload fileName docType e => rw [step, uploadHandler_saved_contexts]
  | clearDoc => rfl

theorem applyOps_lookup {lbl : String} :
    ∀ (ops : List Op) (s : SessionState),
      (∀ op ∈ ops, preservesB lbl op = true) →
      lookupCtx (applyOps ops s).saved_contexts lbl = lookupCtx s.saved_contexts lbl := by
  intro ops
  induction ops with
  | nil => intro s _; rfl
  | cons op rest ih =>
    intro s h
    rw [applyOps, ih (step op s) (fun o ho => h o (List.mem_cons_of_mem _ ho))]
    exact step_lookup_preserved (h op (List.mem_cons_self _ _)) s

/-! ### Claim theorems -/

/-- Claim C1: the PDF extractor is claimed to raise the no-extractable-text
error on every PDF whose pages all yield empty text (an image-only PDF).  The
code does not: the unconditional page headers make the concatenation
non-whitespace for any PDF with at least one page, so a one-page image-only
PDF is accepted and its extraction returns just the page header, contradicting
the extractor's own error message about image-based documents. -/
theorem pdf_image_only_page_no_error :
    extract_pdf_content [""] = Except.ok "\n--- Page 1 ---\n" := by decide

/-- Claim C2: once `save_context` stores a snapshot under a label, any
subsequent sequence of operations (chat submissions, chat clear, snapshot
loads, saves and deletions under other labels, document upload or clear)
leaves the stored snapshot exactly as it was at save time: the save-time
messages in order, with the save-time document name and type. -/
theorem snapshot_immutable (s : SessionState) (lbl : String) (ops : List Op)
    (hl : pyStrip lbl ≠ "") (hm : s.messages ≠ [])
    (hops : ∀ op ∈ ops, preservesB lbl op = true) :
    lookupCtx (applyOps ops (save_context s lbl)).saved_contexts lbl
      = some ⟨s.messages, s.document_name, s.document_type⟩ := by
  rw [applyOps_lookup ops _ hops]
  unfold save_context
  rw [if_neg hl, if_pos hm]
  exact lookupCtx_insertCtx_self _ _ _

/-- Witness for C2 at a concrete session and operation sequence. -/
theorem snapshot_immutable_witness :
    lookupCtx (applyOps
        [Op.saveCtx "y", Op.clearChat, Op.chatMsg "q" (Except.error "boom"),
         Op.clearDoc, Op.loadCtx "y", Op.deleteCtx "y",
         Op.upload "f.txt" "Text" (Except.ok "hello")]
        (save_context ⟨[⟨"user", "hi"⟩], some "Hello", some "d.txt", some "Text", 5, []⟩
          "x")).saved_contexts "x"
      = some ⟨[⟨"user", "hi"⟩], some "d.txt", some "Text"⟩ :=
  snapshot_immutable _ "x" _ (by decide) (by decide) (by decide)

/-- Claim C3: for a non-empty conversation and a non-blank label,
`save_context`, then `clear_chat`, then `load_context` on that label restores
the live messages to exactly the turns present at save time, in order. -/
theorem snapshot_roundtrip (s : SessionState) (x : String)
    (hm : s.messages ≠ []) (hx : pyStrip x ≠ "") :
    (load_context (clear_chat (save_context s x)) x).messages = s.messages := by
  unfold save_context
  rw [if_neg hx, if_pos hm]
  unfold clear_chat load_context
  simp [lookupCtx_insertCtx_self]

/-- Witness for C3 at a concrete conversation. -/
theorem snapshot_roundtrip_witness :
    (load_context (clear_chat (save_context
        ⟨[⟨"user", "hi"⟩, ⟨"assistant", "yo"⟩], none, none, none, 0, []⟩ "x")) "x").messages
      = [⟨"user", "hi"⟩, ⟨"assistant", "yo"⟩] :=
  snapshot_roundtrip _ "x" (by decide) (by decide)

/-- Claim C4 (amended): the recorded document size is the code-point length of
the extracted text (Python `len`), not the original file size; it is computed
from the extracted content at set time.  It equals a byte count only for
text whose characters are all single-byte. -/
theorem upload_records_length (s : SessionState) (fileName docType content : String)
    (h : content ≠ "") :
    (uploadHandler s fileName docType (Except.ok content)).document_size = content.length ∧
    (uploadHandler s fileName docType (Except.ok content)).document_content = some content := by
  simp [uploadHandler, process_document, h]

/-- Witness for the amended C4 at a concrete upload. -/
theorem upload_records_length_witness :
    (uploadHandler ⟨[], none, none, none, 0, []⟩ "n.txt" "Text"
        (Except.ok "Hello world")).document_size = "Hello world".length ∧
    (uploadHandler ⟨[], none, none, none, 0, []⟩ "n.txt" "Text"
        (Except.ok "Hello world")).document_content = some "Hello world" :=
  upload_records_length _ "n.txt" "Text" "Hello world" (by decide)

/-- Counterexample to C4 as stated: uploading a text file whose extracted text
is the single two-byte character "é" records size 1 (code points), not the
2 bytes of its UTF-8 encoding. -/
theorem upload_size_not_bytes :
    (uploadHandler ⟨[], none, none, none, 0, []⟩ "a.txt" "Text"
        (Except.ok "é")).document_size ≠ specSizeBytes "é" := by decide

/-- Claim C5: when the completion call raises, the chat handler appends the
user turn before the call and nothing afterwards: the resulting message list
is exactly the prior turns followed by the user's turn, with no assistant
turn. -/
theorem completion_failure_keeps_user_turn (s : SessionState) (prompt err : String)
    (hdoc : strTruthy s.document_content = true) :
    (chatSubmit s prompt (Except.error err)).messages
      = s.messages ++ [⟨"user", prompt⟩] := by
  simp [chatSubmit, hdoc]

/-- Witness for C5 at a concrete conversation and a failing call. -/
theorem completion_failure_witness :
    (chatSubmit ⟨[⟨"user", "old"⟩, ⟨"assistant", "ans"⟩], some "doc", some "d.txt",
        some "Text", 3, []⟩ "hello" (Except.error "rate limit")).messages
      = [⟨"user", "old"⟩, ⟨"assistant", "ans"⟩] ++ [⟨"user", "hello"⟩] :=
  completion_failure_keeps_user_turn _ "hello" "rate limit" (by decide)

/-- Claim C6: an upload whose extraction raises leaves the document store
unchanged: content, name, kind and size all keep their previous values. -/
theorem failed_upload_keeps_document (s : SessionState) (fileName docType msg : String) :
    (uploadHandler s fileName docType (Except.error msg)).document_content
        = s.document_content ∧
    (uploadHandler s fileName docType (Except.error msg)).document_name = s.document_name ∧
    (uploadHandler s fileName docType (Except.error msg)).document_type = s.document_type ∧
    (uploadHandler s fileName docType (Except.error msg)).document_size = s.document_size :=
  ⟨rfl, rfl, rfl, rfl⟩

/-- Claim C7: loading a label absent from the snapshot mapping reports an
error and returns the session unchanged, so the live conversation and the
document store are untouched. -/
theorem load_absent_noop (s : SessionState) (lbl : String)
    (h : lookupCtx s.saved_contexts lbl = none) :
    load_context s lbl = s := by
  unfold load_context
  rw [h]

/-- Witness for C7 at a concrete session with one saved snapshot. -/
theorem load_absent_noop_witness :
    load_context ⟨[⟨"user", "hi"⟩], none, none, none, 0,
        [("a", ⟨[⟨"user", "q"⟩], none, none⟩)]⟩ "b"
      = ⟨[⟨"user", "hi"⟩], none, none, none, 0,
        [("a", ⟨[⟨"user", "q"⟩], none, none⟩)]⟩ :=
  load_absent_noop _ "b" (by decide)

/-- Claim C8: the assembled system prompt depends only on the document fields
(never on the conversation turns), and it is the fixed header, the document
name, the type line, the document content verbatim between the `---` sentinel
lines, then the fixed behavioral guidelines; in particular the delimited
document content is a contiguous substring of the prompt. -/
theorem system_prompt_spec (s t : SessionState)
    (hn : s.document_name = t.document_name)
    (hd : s.document_type = t.document_type)
    (hc : s.document_content = t.document_content) :
    systemPromptOf s = systemPromptOf t ∧
    systemPromptOf s =
      promptHeader ++ fmtOpt s.document_name ++ "\nTYPE: " ++ fmtOpt s.document_type
        ++ "\n\nDOCUMENT CONTENT:\n" ++ "---\n" ++ fmtOpt s.document_content ++ "\n---"
        ++ promptGuidelines ∧
    ("---\n" ++ fmtOpt s.document_content ++ "\n---").data <:+: (systemPromptOf s).data := by
  refine ⟨by simp [systemPromptOf, build_system_prompt, hn, hd, hc], rfl, ?_⟩
  refine ⟨(promptHeader ++ fmtOpt s.document_name ++ "\nTYPE: " ++ fmtOpt s.document_type
      ++ "\n\nDOCUMENT CONTENT:\n").data, promptGuidelines.data, ?_⟩
  simp only [systemPromptOf, build_system_prompt, String.data_append, List.append_assoc]

/-- Witness for C8: two sessions with the same loaded document but different
conversations produce the same prompt, with the content delimited inside it. -/
theorem system_prompt_spec_witness :
    systemPromptOf ⟨[], some "Hello world", some "doc.txt", some "Text", 11, []⟩
      = systemPromptOf ⟨[⟨"user", "hi"⟩], some "Hello world", some "doc.txt", some "Text",
          11, []⟩ ∧
    systemPromptOf ⟨[], some "Hello world", some "doc.txt", some "Text", 11, []⟩
      = promptHeader ++ fmtOpt (some "doc.txt") ++ "\nTYPE: " ++ fmtOpt (some "Text")
        ++ "\n\nDOCUMENT CONTENT:\n" ++ "---\n" ++ fmtOpt (some "Hello world") ++ "\n---"
        ++ promptGuidelines ∧
    ("---\n" ++ fmtOpt (some "Hello world") ++ "\n---").data
      <:+: (systemPromptOf ⟨[], some "Hello world", some "doc.txt", some "Text", 11, []⟩).data :=
  system_prompt_spec _ _ rfl rfl rfl

/-- Claim C9: the extractor writes a page header for every page, even pages
yielding no text, so on any PDF with at least one page the result is
non-whitespace, extraction succeeds, and every 0-based page index contributes
its 1-indexed header as a substring. -/
theorem pdf_markers_every_page (pages : List String) (h : pages ≠ []) :
    pyStrip (pdfPagesText 0 pages) ≠ "" ∧
    extract_pdf_content pages = Except.ok (pdfPagesText 0 pages) ∧
    ∀ i, i < pages.length → (pageMarker i).data <:+: (pdfPagesText 0 pages).data := by
  have hlen : 0 < pages.length := List.length_pos.mpr h
  have m0 := markerWithinPages pages 0 0 hlen
  have hdash : '-' ∈ (pageMarker 0).data := by decide
  have hne : pyStrip (pdfPagesText 0 pages) ≠ "" :=
    pyStrip_ne_empty (memOfWithin m0 hdash) (by decide)
  refine ⟨hne, ?_, ?_⟩
  · simp [extract_pdf_content, hne]
  · intro i hi
    simpa using markerWithinPages pages 0 i hi

/-- Witness for C9 on a two-page PDF whose pages both yield empty text. -/
theorem pdf_markers_every_page_witness :
    pyStrip (pdfPagesText 0 ["", ""]) ≠ "" ∧
    extract_pdf_content ["", ""] = Except.ok (pdfPagesText 0 ["", ""]) ∧
    (pageMarker 1).data <:+: (pdfPagesText 0 ["", ""]).data := by
  obtain ⟨h1, h2, h3⟩ := pdf_markers_every_page ["", ""] (by decide)
  exact ⟨h1, h2, h3 1 (by decide)⟩

/-- Claim C10: with a non-empty conversation and a non-blank label,
`save_context` succeeds when no document is loaded, and the stored snapshot
records `none` for both the document name and the document kind. -/
theorem save_without_document (s : SessionState) (lbl : String)
    (hm : s.messages ≠ []) (hl : pyStrip lbl ≠ "")
    (hn : s.document_name = none) (ht : s.document_type = none) :
    lookupCtx (save_context s lbl).saved_contexts lbl
      = some ⟨s.messages, none, none⟩ := by
  unfold save_context
  rw [if_neg hl, if_pos hm, hn, ht]
  exact lookupCtx_insertCtx_self _ _ _

/-- Witness for C10 at a concrete document-free session. -/
theorem save_without_document_witness :
    lookupCtx (save_context ⟨[⟨"user", "hi"⟩], none, none, none, 0, []⟩
        "ctx").saved_contexts "ctx"
      = some ⟨[⟨"user", "hi"⟩], none, none⟩ :=
  save_without_document _ "ctx" (by decide) (by decide) rfl rfl
